import Mathlib

/-!
Verification development for the analysis core of the NGT language server
(tokenizer / recursive-descent parser / scope-and-symbol resolver).

The definitions below are shallow embeddings of the TypeScript sources
`server/src/compile/symbolic.ts`, `server/src/compile/parser.ts` and
`server/src/compile/tokenReserves.ts`.  JavaScript `Map` objects are
embedded as association lists with JS `Map` semantics (`get` finds the
first binding, `set` overwrites in place keeping insertion order),
in-place mutation of a symbol already stored in a map is embedded as
replacing the stored entry by the mutated value, and object identity
(reference equality) is embedded by tagging each allocation with a
distinct numeric `uid`.  Fallible field accesses on a missing token
(JS `undefined`) are embedded as an explicit `crash` outcome.
-/

namespace NGT

/-! ## Tokens (token.ts / parsingToken.ts / tokens.ts)

The token sources themselves are not part of the analyzed snapshot; the
shapes below follow the fields the analyzed code reads. -/

/-- Lexical kind of a token (`TokenKind` in tokens.ts: reserved word or mark,
identifier, number literal, string literal). -/
inductive TokenKind where
  | reserved
  | identifier
  | number
  | string
deriving DecidableEq, Repr

/-- Modelled from the spec: `ReservedWordProperty` is a flag record attached to
every reserved mark/keyword, computed once at process start from the fixed
symbol lists of tokenReserves.ts.  Field names follow tokenReserves.ts. -/
structure ReservedWordProperty where
  isExprPreOp : Bool
  isBitOp : Bool
  isMathOp : Bool
  isCompOp : Bool
  isLogicOp : Bool
  isAssignOp : Bool
  isNumber : Bool
  isPrimeType : Bool
deriving DecidableEq, Repr

/-- Modelled from the spec: `ParsingToken` (parsingToken.ts, not in the
snapshot) is a token annotated with its `ReservedWordProperty`.  The `uid`
field stands for the source location and, for virtual tokens, for the
allocation identity of the token object: two tokens are the same JS object
exactly when their `uid`s agree. -/
structure ParsingToken where
  kind : TokenKind
  text : String
  uid : Nat
  property : ReservedWordProperty
deriving DecidableEq, Repr

/-! ## Reserved-word registry (tokenReserves.ts) -/

/-- The fixed list of reserved operator marks (`reservedMarkArray`). -/
def reservedMarkArray : List String :=
  ["*", "**", "/", "%", "+", "-", "<=", "<", ">=", ">", "(", ")", "==", "!=",
   "?", ":", "=", "+=", "-=", "*=", "/=", "%=", "**=", "++", "--", "&", ",",
   "\x7b", "\x7d", ";", "|", "^", "~", "<<", ">>", ">>>", "&=", "|=", "^=", "<<=",
   ">>=", ">>>=", ".", "&&", "||", "!", "[", "]", "^^", "@", "::"]

/-- The fixed list of reserved keywords (`reservedKeywordArray`). -/
def reservedKeywordArray : List String :=
  ["and", "auto", "bool", "break", "case", "cast", "catch", "class", "const",
   "continue", "default", "do", "double", "else", "enum", "false", "float",
   "for", "funcdef", "if", "import", "in", "inout", "int", "interface",
   "int8", "int16", "int32", "int64", "is", "mixin", "namespace", "not",
   "null", "or", "out", "override", "private", "property", "protected",
   "return", "switch", "true", "try", "typedef", "uint", "uint8", "uint16",
   "uint32", "uint64", "void", "while", "xor"]

/-- `exprPreOpSet` from tokenReserves.ts. -/
def exprPreOpSet : List String := ["-", "+", "!", "++", "--", "~", "@"]

/-- `bitOpSet` from tokenReserves.ts. -/
def bitOpSet : List String := ["&", "|", "^", "<<", ">>", ">>>"]

/-- `mathOpSet` from tokenReserves.ts. -/
def mathOpSet : List String := ["+", "-", "*", "/", "%", "**"]

/-- `compOpSet` from tokenReserves.ts. -/
def compOpSet : List String := ["==", "!=", "<", "<=", ">", ">=", "is"]

/-- `logicOpSet` from tokenReserves.ts. -/
def logicOpSet : List String := ["&&", "||", "^^", "and", "or", "xor"]

/-- `assignOpSet` from tokenReserves.ts. -/
def assignOpSet : List String :=
  ["=", "+=", "-=", "*=", "/=", "|=", "&=", "^=", "%=", "**=", "<<=", ">>=", ">>>="]

/-- `numberTypeSet` from tokenReserves.ts, kept as a list in the set's
insertion order (JS `Set` iterates in insertion order, which fixes the
order in which the builtin number singletons are created). -/
def numberTypeSet : List String :=
  ["int", "int8", "int16", "int32", "int64",
   "uint", "uint8", "uint16", "uint32", "uint64", "float", "double"]

/-- `primeTypeSet` from tokenReserves.ts. -/
def primeTypeSet : List String :=
  ["void", "int", "int8", "int16", "int32", "int64",
   "uint", "uint8", "uint16", "uint32", "uint64", "float", "double", "bool"]

/-- The property record `createProperties` computes for a reserved word:
every flag is set exactly when the word belongs to the corresponding fixed
set. -/
def propertyOf (text : String) : ReservedWordProperty :=
  { isExprPreOp := decide (text ∈ exprPreOpSet)
    isBitOp := decide (text ∈ bitOpSet)
    isMathOp := decide (text ∈ mathOpSet)
    isCompOp := decide (text ∈ compOpSet)
    isLogicOp := decide (text ∈ logicOpSet)
    isAssignOp := decide (text ∈ assignOpSet)
    isNumber := decide (text ∈ numberTypeSet)
    isPrimeType := decide (text ∈ primeTypeSet) }

/-- `createProperties` of tokenReserves.ts: the registry holds an entry for
every reserved mark and keyword, with the flags of `propertyOf`; any other
text is absent ("not reserved", never an error). -/
def reservedWordProperties (text : String) : Option ReservedWordProperty :=
  if text ∈ reservedMarkArray ++ reservedKeywordArray then
    some (propertyOf text)
  else none

/-- A token is well formed when it carries the registry's property record
for its own text; every token produced by the tokenizer satisfies this. -/
def wellFormedToken (t : ParsingToken) : Prop :=
  t.kind = TokenKind.reserved → reservedWordProperties t.text = some t.property

/-! ## Symbolic objects (symbolic.ts) -/

/-- `PrimitiveType` of symbolic.ts. -/
inductive PrimitiveType where
  | template
  | stringPrim
  | bool
  | number
  | void
  | any
  | auto
deriving DecidableEq, Repr

/-- `SourceType = NodeEnum | NodeClass | NodeInterface | PrimitiveType`.
The node variants stand for enum/class/interface declaration nodes; only
their identity matters here, so each carries a `uid`. -/
inductive SourceType where
  | enumNode (uid : Nat)
  | classNode (uid : Nat)
  | interfaceNode (uid : Nat)
  | prim (p : PrimitiveType)
deriving DecidableEq, Repr

/-- `SymbolicType` of symbolic.ts.  The fields `templateTypes`, `baseList`,
`isHandler` and `membersScope` are never read by the operations verified
here and are elided. -/
structure SymbolicType where
  declaredPlace : ParsingToken
  sourceType : SourceType
deriving DecidableEq, Repr

/-- `SymbolicFunction` of symbolic.ts: `nextOverload` is the owned link to
the next function symbol sharing this name.  The fields `sourceNode`,
`returnType`, `parameterTypes` and `isInstanceMember` are never read by the
operations verified here and are elided; two functions are distinguished by
the `uid` of their `declaredPlace`. -/
inductive SymbolicFunction where
  | mk (declaredPlace : ParsingToken) (nextOverload : Option SymbolicFunction)

/-- The defining token of a function symbol. -/
def SymbolicFunction.declaredPlace : SymbolicFunction → ParsingToken
  | .mk dp _ => dp

/-- The overload link of a function symbol. -/
def SymbolicFunction.nextOverload : SymbolicFunction → Option SymbolicFunction
  | .mk _ nxt => nxt

/-- Boolean equality on overload chains (structural, link by link). -/
def SymbolicFunction.beq : SymbolicFunction → SymbolicFunction → Bool
  | .mk d none, .mk e none => d == e
  | .mk d (some f), .mk e (some g) => d == e && SymbolicFunction.beq f g
  | _, _ => false

theorem SymbolicFunction.beq_iff :
    ∀ a b : SymbolicFunction, SymbolicFunction.beq a b = true ↔ a = b
  | .mk d none, .mk e none => by simp [SymbolicFunction.beq]
  | .mk d (some f), .mk e (some g) => by
      simp [SymbolicFunction.beq, SymbolicFunction.beq_iff f g, and_comm]
  | .mk d none, .mk e (some g) => by simp [SymbolicFunction.beq]
  | .mk d (some f), .mk e none => by simp [SymbolicFunction.beq]

instance : DecidableEq SymbolicFunction :=
  fun a b => decidable_of_iff _ (SymbolicFunction.beq_iff a b)

/-- `SymbolicVariable` of symbolic.ts; its `type` and `isInstanceMember`
fields are never read by the operations verified here and are elided. -/
structure SymbolicVariable where
  declaredPlace : ParsingToken
deriving DecidableEq, Repr

/-- `SymbolicObject = SymbolicType | SymbolicFunction | SymbolicVariable`. -/
inductive SymbolicObject where
  | ofType (t : SymbolicType)
  | ofFunc (f : SymbolicFunction)
  | ofVar (v : SymbolicVariable)
deriving DecidableEq

/-- `symbol.declaredPlace`, defined on the union as in `SymbolicBase`. -/
def SymbolicObject.declaredPlace : SymbolicObject → ParsingToken
  | .ofType t => t.declaredPlace
  | .ofFunc f => f.declaredPlace
  | .ofVar v => v.declaredPlace

/-- Whether `symbol.symbolKind === SymbolKind.Function`. -/
def SymbolicObject.isFunctionKind : SymbolicObject → Bool
  | .ofFunc _ => true
  | _ => false

/-! ## Symbol maps (`SymbolMap = Map<string, SymbolicObject>`) -/

/-- A JS `Map<string, SymbolicObject>` as an association list in insertion
order. -/
def SymbolMap := List (String × SymbolicObject)

/-- `map.get(key)`: the first binding of `key`, if any. -/
def mapGet : SymbolMap → String → Option SymbolicObject
  | [], _ => none
  | (k, v) :: rest, key => if k = key then some v else mapGet rest key

/-- `map.set(key, value)`: overwrite the existing binding in place (JS keeps
the original insertion position) or append a new one. -/
def mapSet : SymbolMap → String → SymbolicObject → SymbolMap
  | [], key, v => [(key, v)]
  | (k, w) :: rest, key, v =>
      if k = key then (k, v) :: rest else (k, w) :: mapSet rest key v

/-- A diagnostic sent to the external diagnostics collaborator: the `uid` of
the location token and the message text. -/
structure Diag where
  locationUid : Nat
  message : String
deriving DecidableEq, Repr

/-- The cursor loop of `insertSymbolicObject`: walk `nextOverload` links to
the tail and attach the new symbol there (`cursor.nextOverload = symbol`). -/
def appendOverload : SymbolicFunction → SymbolicFunction → SymbolicFunction
  | .mk dp none, g => .mk dp (some g)
  | .mk dp (some f), g => .mk dp (some (appendOverload f g))

/-- `insertSymbolicObject(map, symbol)` of symbolic.ts.  Returns the map
after the call (the in-place mutation of the stored overload chain is
embedded as replacing the stored entry), the boolean result, and the list
of diagnostics emitted during the call. -/
def insertSymbolicObject (map : SymbolMap) (symbol : SymbolicObject) :
    SymbolMap × Bool × List Diag :=
  let identifier := symbol.declaredPlace.text
  match mapGet map identifier with
  | none => (mapSet map identifier symbol, true, [])
  | some hit =>
    match symbol, hit with
    | .ofFunc f, .ofFunc g =>
        (mapSet map identifier (.ofFunc (appendOverload g f)), true, [])
    | _, _ =>
        (map, false,
         [{ locationUid := symbol.declaredPlace.uid
            message := s!"Symbol {identifier} is already defined" }])

/-- Traversal order of an overload chain: the defining tokens visited by
following `nextOverload` from the head. -/
def overloadPlaces : SymbolicFunction → List ParsingToken
  | .mk dp none => [dp]
  | .mk dp (some g) => dp :: overloadPlaces g

/-! ### Map lemmas -/

theorem mapGet_mapSet_self (m : SymbolMap) (k : String) (v : SymbolicObject) :
    mapGet (mapSet m k v) k = some v := by
  induction m with
  | nil => simp [mapGet, mapSet]
  | cons hd tl ih =>
      obtain ⟨k0, v0⟩ := hd
      by_cases h : k0 = k
      · simp [mapGet, mapSet, h]
      · simp [mapGet, mapSet, h, ih]

/-! ## Claim C1: overload chains append at the tail in declaration order -/

/-- C1.  Inserting three fresh function symbols that share one declared name
into a symbol map that does not yet bind that name: every insertion returns
success with no diagnostic, and the resulting entry's overload chain,
followed through `nextOverload`, visits the functions in declaration order
f1, f2, f3. -/
theorem insertSymbolicObject_overload_order
    (m : SymbolMap) (name : String) (f1 f2 f3 : SymbolicFunction)
    (m1 m2 m3 : SymbolMap) (b1 b2 b3 : Bool) (d1 d2 d3 : List Diag)
    (hfresh : mapGet m name = none)
    (h1 : f1.declaredPlace.text = name)
    (h2 : f2.declaredPlace.text = name)
    (h3 : f3.declaredPlace.text = name)
    (n1 : f1.nextOverload = none)
    (n2 : f2.nextOverload = none)
    (n3 : f3.nextOverload = none)
    (e1 : insertSymbolicObject m (.ofFunc f1) = (m1, b1, d1))
    (e2 : insertSymbolicObject m1 (.ofFunc f2) = (m2, b2, d2))
    (e3 : insertSymbolicObject m2 (.ofFunc f3) = (m3, b3, d3)) :
    b1 = true ∧ b2 = true ∧ b3 = true ∧
    d1 = [] ∧ d2 = [] ∧ d3 = [] ∧
    ∃ g : SymbolicFunction, mapGet m3 name = some (.ofFunc g) ∧
      overloadPlaces g =
        [f1.declaredPlace, f2.declaredPlace, f3.declaredPlace] := by
  obtain ⟨dp1, nx1⟩ := f1
  obtain ⟨dp2, nx2⟩ := f2
  obtain ⟨dp3, nx3⟩ := f3
  simp only [SymbolicFunction.nextOverload] at n1 n2 n3
  subst n1; subst n2; subst n3
  simp only [SymbolicFunction.declaredPlace] at h1 h2 h3 ⊢
  have s1 : insertSymbolicObject m (.ofFunc (.mk dp1 none)) =
      (mapSet m name (.ofFunc (.mk dp1 none)), true, []) := by
    simp [insertSymbolicObject, SymbolicObject.declaredPlace,
      SymbolicFunction.declaredPlace, h1, hfresh]
  rw [s1] at e1
  injection e1 with eA eB
  injection eB with eC eD
  subst eA; subst eC; subst eD
  have g1 := mapGet_mapSet_self m name (.ofFunc (.mk dp1 none))
  have s2 : insertSymbolicObject (mapSet m name (.ofFunc (.mk dp1 none)))
      (.ofFunc (.mk dp2 none)) =
      (mapSet (mapSet m name (.ofFunc (.mk dp1 none))) name
        (.ofFunc (.mk dp1 (some (.mk dp2 none)))), true, []) := by
    simp [insertSymbolicObject, SymbolicObject.declaredPlace,
      SymbolicFunction.declaredPlace, h2, g1, appendOverload]
  rw [s2] at e2
  injection e2 with eA eB
  injection eB with eC eD
  subst eA; subst eC; subst eD
  have g2 := mapGet_mapSet_self (mapSet m name (.ofFunc (.mk dp1 none))) name
    (.ofFunc (.mk dp1 (some (.mk dp2 none))))
  have s3 : insertSymbolicObject
      (mapSet (mapSet m name (.ofFunc (.mk dp1 none))) name
        (.ofFunc (.mk dp1 (some (.mk dp2 none)))))
      (.ofFunc (.mk dp3 none)) =
      (mapSet (mapSet (mapSet m name (.ofFunc (.mk dp1 none))) name
          (.ofFunc (.mk dp1 (some (.mk dp2 none))))) name
        (.ofFunc (.mk dp1 (some (.mk dp2 (some (.mk dp3 none)))))), true, []) := by
    simp [insertSymbolicObject, SymbolicObject.declaredPlace,
      SymbolicFunction.declaredPlace, h3, g2, appendOverload]
  rw [s3] at e3
  injection e3 with eA eB
  injection eB with eC eD
  subst eA; subst eC; subst eD
  refine ⟨rfl, rfl, rfl, rfl, rfl, rfl,
    .mk dp1 (some (.mk dp2 (some (.mk dp3 none)))), ?_, rfl⟩
  exact mapGet_mapSet_self _ _ _

/-- The overload-insertion demo token named `f` with allocation id `u`. -/
def demoFuncTok (u : Nat) : ParsingToken :=
  { kind := .identifier, text := "f", uid := u, property := propertyOf "f" }

/-- Closed instance of C1: three functions named `f` inserted into an empty
scope chain in order 1, 2, 3. -/
theorem insertSymbolicObject_overload_order_witness :
    mapGet [] "f" = none ∧
    ∃ g : SymbolicFunction,
      mapGet (insertSymbolicObject
        (insertSymbolicObject
          (insertSymbolicObject [] (.ofFunc (.mk (demoFuncTok 1) none))).1
          (.ofFunc (.mk (demoFuncTok 2) none))).1
        (.ofFunc (.mk (demoFuncTok 3) none))).1 "f" = some (.ofFunc g) ∧
      overloadPlaces g = [demoFuncTok 1, demoFuncTok 2, demoFuncTok 3] := by
  refine ⟨rfl, ?_⟩
  have h := insertSymbolicObject_overload_order [] "f"
    (.mk (demoFuncTok 1) none) (.mk (demoFuncTok 2) none)
    (.mk (demoFuncTok 3) none) _ _ _ _ _ _ _ _ _
    rfl rfl rfl rfl rfl rfl rfl rfl rfl rfl
  exact h.2.2.2.2.2.2

/-! ## Claim C2: duplicate non-overloadable definitions are rejected -/

/-- C2.  Inserting a second symbol under a name the map already binds, when
the new and existing symbols are not both functions: exactly one diagnostic
is emitted, the call returns conflict (`false`), and the map is unchanged,
still holding the first symbol (the new one is discarded). -/
theorem insertSymbolicObject_duplicate_rejected
    (m : SymbolMap) (name : String) (hit : SymbolicObject)
    (symbol : SymbolicObject)
    (hhit : mapGet m name = some hit)
    (hname : symbol.declaredPlace.text = name)
    (hnotboth : ¬(symbol.isFunctionKind = true ∧ hit.isFunctionKind = true)) :
    let r := insertSymbolicObject m symbol
    r.1 = m ∧ r.2.1 = false ∧ r.2.2.length = 1 ∧
    mapGet r.1 name = some hit := by
  cases symbol with
  | ofType t =>
      simp only [SymbolicObject.declaredPlace] at hname
      simp [insertSymbolicObject, SymbolicObject.declaredPlace, hname, hhit]
  | ofVar v =>
      simp only [SymbolicObject.declaredPlace] at hname
      simp [insertSymbolicObject, SymbolicObject.declaredPlace, hname, hhit]
  | ofFunc f =>
      cases hit with
      | ofFunc g => exact absurd ⟨rfl, rfl⟩ hnotboth
      | ofType t =>
          simp only [SymbolicObject.declaredPlace] at hname
          simp [insertSymbolicObject, SymbolicObject.declaredPlace, hname, hhit]
      | ofVar v =>
          simp only [SymbolicObject.declaredPlace] at hname
          simp [insertSymbolicObject, SymbolicObject.declaredPlace, hname, hhit]

/-- Closed instance of C2: a variable `x` then a class `x` in the same
scope. -/
theorem insertSymbolicObject_duplicate_rejected_witness :
    let xVar : SymbolicObject := .ofVar
      { declaredPlace :=
          { kind := .identifier, text := "x", uid := 10,
            property := propertyOf "x" } }
    let xClass : SymbolicObject := .ofType
      { declaredPlace :=
          { kind := .identifier, text := "x", uid := 11,
            property := propertyOf "x" }
        sourceType := .classNode 0 }
    let m1 := (insertSymbolicObject [] xVar).1
    let r := insertSymbolicObject m1 xClass
    r.1 = m1 ∧ r.2.1 = false ∧ r.2.2.length = 1 ∧
    mapGet r.1 "x" = some xVar := by
  exact insertSymbolicObject_duplicate_rejected _ "x" _ _
    rfl rfl (by simp [SymbolicObject.isFunctionKind])

/-! ## Builtin type singletons (symbolic.ts) -/

/-- Modelled from the spec: `createVirtualToken` (parsingToken.ts, not in the
snapshot) allocates a fresh token object with the given kind and text; the
`uid` records the allocation so that distinct calls yield distinct objects. -/
def createVirtualToken (kind : TokenKind) (text : String) (uid : Nat) :
    ParsingToken :=
  { kind := kind, text := text, uid := uid, property := propertyOf text }

/-- `createBuiltinType(virtualToken, name)` of symbolic.ts. -/
def createBuiltinType (virtualToken : ParsingToken) (name : PrimitiveType) :
    SymbolicType :=
  { declaredPlace := virtualToken, sourceType := .prim name }

/-- `get` on a `Map<string, SymbolicType>`. -/
def tyMapGet : List (String × SymbolicType) → String → Option SymbolicType
  | [], _ => none
  | (k, v) :: rest, key => if k = key then some v else tyMapGet rest key

/-- `builtinNumberTypeMap` of symbolic.ts: one `SymbolicType` singleton is
allocated per name of `numberTypeSet`, in the set's insertion order.  The
allocation index of each virtual token embeds the object identity of the
singleton created at process start. -/
def builtinNumberTypeMap : List (String × SymbolicType) :=
  numberTypeSet.enum.map
    (fun p => (p.2, createBuiltinType
      (createVirtualToken .reserved p.2 p.1) .number))

/-- `builtinStringType` of symbolic.ts (allocation follows the number map). -/
def builtinStringType : SymbolicType :=
  createBuiltinType (createVirtualToken .string "string" 12) .stringPrim

/-- `builtinIntType = builtinNumberTypeMap.get('int')!`. -/
def builtinIntType : SymbolicType :=
  (tyMapGet builtinNumberTypeMap "int").get (by decide)

/-- `builtinFloatType = builtinNumberTypeMap.get('float')!`. -/
def builtinFloatType : SymbolicType :=
  (tyMapGet builtinNumberTypeMap "float").get (by decide)

/-- `builtinDoubleType = builtinNumberTypeMap.get('double')!`. -/
def builtinDoubleType : SymbolicType :=
  (tyMapGet builtinNumberTypeMap "double").get (by decide)

/-- `assignBuiltinNumberType` of symbolic.ts: look the key up in the number
map; the `assert(false)` on a miss (an invariant violation, fatal in the
source) is embedded as `none`. -/
def assignBuiltinNumberType (key : String) : Option SymbolicType :=
  tyMapGet builtinNumberTypeMap key

/-- `builtinBoolType` singleton of symbolic.ts. -/
def builtinBoolType : SymbolicType :=
  createBuiltinType (createVirtualToken .reserved "bool" 13) .bool

/-- `builtinVoidType` singleton of symbolic.ts. -/
def builtinVoidType : SymbolicType :=
  createBuiltinType (createVirtualToken .reserved "void" 14) .void

/-- `builtinAnyType` singleton of symbolic.ts. -/
def builtinAnyType : SymbolicType :=
  createBuiltinType (createVirtualToken .reserved "?" 15) .any

/-- `builtinAutoType` singleton of symbolic.ts. -/
def builtinAutoType : SymbolicType :=
  createBuiltinType (createVirtualToken .reserved "auto" 16) .auto

/-- `tryGetBuiltInType(token)` of symbolic.ts: resolve a reserved token
directly to the corresponding process-wide singleton, with no scope
argument at all; any other token yields `undefined`. -/
def tryGetBuiltInType (token : ParsingToken) : Option SymbolicType :=
  if token.kind ≠ TokenKind.reserved then none
  else if token.text = "bool" then some builtinBoolType
  else if token.text = "void" then some builtinVoidType
  else if token.text = "?" then some builtinAnyType
  else if token.text = "auto" then some builtinAutoType
  else if token.kind = TokenKind.reserved ∧ token.property.isNumber = true then
    assignBuiltinNumberType token.text
  else none

/-- The result of a builtin lookup on a registry-consistent reserved token
depends only on the token's text, never on its source location (`uid`). -/
theorem tryGetBuiltInType_normal (tok : ParsingToken)
    (hk : tok.kind = TokenKind.reserved)
    (hp : tok.property = propertyOf tok.text) :
    tryGetBuiltInType tok =
      tryGetBuiltInType ⟨.reserved, tok.text, 0, propertyOf tok.text⟩ := by
  simp only [tryGetBuiltInType, hk, hp]

/-! ## Claim C3: builtin lookup returns shared singletons and none otherwise -/

/-- C3.  For well-formed tokens (tokens carrying the registry's property
record for their text): a reserved token whose text is `bool`, `void`, `?`,
`auto` or a registered numeric-type name resolves to the corresponding
singleton (the number singleton being the one stored in
`builtinNumberTypeMap`); the function takes no scope, and two lookups of
tokens with the same text — e.g. two `int` tokens from different source
locations — return the very same singleton value, allocation identity
included; every other token yields none. -/
theorem tryGetBuiltInType_characterization
    (t t1 t2 : ParsingToken)
    (hw : wellFormedToken t)
    (hw1 : wellFormedToken t1) (hw2 : wellFormedToken t2) :
    (t.kind = TokenKind.reserved → t.text = "bool" →
      tryGetBuiltInType t = some builtinBoolType) ∧
    (t.kind = TokenKind.reserved → t.text = "void" →
      tryGetBuiltInType t = some builtinVoidType) ∧
    (t.kind = TokenKind.reserved → t.text = "?" →
      tryGetBuiltInType t = some builtinAnyType) ∧
    (t.kind = TokenKind.reserved → t.text = "auto" →
      tryGetBuiltInType t = some builtinAutoType) ∧
    (t.kind = TokenKind.reserved → t.text ∈ numberTypeSet →
      tryGetBuiltInType t = tyMapGet builtinNumberTypeMap t.text ∧
      (tryGetBuiltInType t).isSome = true) ∧
    (t1.kind = TokenKind.reserved → t2.kind = TokenKind.reserved →
      t1.text = t2.text → tryGetBuiltInType t1 = tryGetBuiltInType t2) ∧
    (t.kind ≠ TokenKind.reserved → tryGetBuiltInType t = none) ∧
    (t.text ∉ (["bool", "void", "?", "auto"] : List String) →
      t.text ∉ numberTypeSet → tryGetBuiltInType t = none) := by
  have prop_of : ∀ u : ParsingToken, wellFormedToken u →
      u.kind = TokenKind.reserved → u.property = propertyOf u.text := by
    intro u hu hk
    have h := hu hk
    unfold reservedWordProperties at h
    by_cases hc : u.text ∈ reservedMarkArray ++ reservedKeywordArray
    · rw [if_pos hc] at h
      injection h with h
      exact h.symm
    · rw [if_neg hc] at h
      exact Option.noConfusion h
  refine ⟨?_, ?_, ?_, ?_, ?_, ?_, ?_, ?_⟩
  ·
    intro hk htxt
    rw [tryGetBuiltInType_normal t hk (prop_of t hw hk), htxt]
    decide
  ·
    intro hk htxt
    rw [tryGetBuiltInType_normal t hk (prop_of t hw hk), htxt]
    decide
  ·
    intro hk htxt
    rw [tryGetBuiltInType_normal t hk (prop_of t hw hk), htxt]
    decide
  ·
    intro hk htxt
    rw [tryGetBuiltInType_normal t hk (prop_of t hw hk), htxt]
    decide
  ·
    intro hk hmem
    rw [tryGetBuiltInType_normal t hk (prop_of t hw hk)]
    simp only [numberTypeSet, List.mem_cons, List.not_mem_nil, or_false]
      at hmem
    rcases hmem with h|h|h|h|h|h|h|h|h|h|h|h <;> rw [h] <;>
      exact ⟨by decide, by decide⟩
  ·
    intro hk1 hk2 htxt
    rw [tryGetBuiltInType_normal t1 hk1 (prop_of t1 hw1 hk1),
      tryGetBuiltInType_normal t2 hk2 (prop_of t2 hw2 hk2), htxt]
  ·
    intro hk
    simp only [tryGetBuiltInType]
    rw [if_pos hk]
  ·
    intro hnotbv hnotnum
    by_cases hk : t.kind = TokenKind.reserved
    · rw [tryGetBuiltInType_normal t hk (prop_of t hw hk)]
      simp only [List.mem_cons, List.not_mem_nil, or_false, not_or] at hnotbv
      obtain ⟨hb, hv, hq, ha⟩ := hnotbv
      have hnum : (propertyOf t.text).isNumber = false := by
        simp only [propertyOf, decide_eq_false_iff_not]
        exact hnotnum
      simp [tryGetBuiltInType, hb, hv, hq, ha, hnum]
    · simp only [tryGetBuiltInType]
      rw [if_pos hk]

/-- Closed instance of C3: two reserved `int` tokens from different source
locations both resolve to the one `int` singleton of the number-type map. -/
theorem tryGetBuiltInType_characterization_witness :
    tryGetBuiltInType (createVirtualToken .reserved "int" 100) =
      tryGetBuiltInType (createVirtualToken .reserved "int" 200) ∧
    tryGetBuiltInType (createVirtualToken .reserved "int" 100) =
      some builtinIntType ∧
    tryGetBuiltInType (createVirtualToken .identifier "int" 300) = none := by
  have h := tryGetBuiltInType_characterization
    (createVirtualToken .identifier "int" 300)
    (createVirtualToken .reserved "int" 100)
    (createVirtualToken .reserved "int" 200)
    (by intro hk; exact absurd hk (by decide))
    (by intro hk; decide) (by intro hk; decide)
  refine ⟨h.2.2.2.2.2.1 rfl rfl rfl, by decide, h.2.2.2.2.2.2.1 (by decide)⟩

/-! ## Template resolution (symbolic.ts) -/

/-- `DeducedType` of symbolic.ts: `symbolType` is a `SymbolicType` or a
`SymbolicFunction`.  The fields `sourceScope`, `isHandler` and
`templateTranslate` are never read by `resolveTemplateType` and are
elided. -/
structure DeducedType where
  symbolType : SymbolicType ⊕ SymbolicFunction
deriving DecidableEq

/-- `TemplateTranslation = Map<ParsingToken, DeducedType | undefined>`: the
JS map is keyed by token object identity, embedded here by full token
equality (identity is the `uid`). -/
def TemplateTranslation := List (ParsingToken × Option DeducedType)

/-- `map.has(key)` on a template translation. -/
def ttHas : TemplateTranslation → ParsingToken → Bool
  | [], _ => false
  | (k, _) :: rest, key => if k = key then true else ttHas rest key

/-- `map.get(key)` on a template translation (the stored value may itself
be `undefined`). -/
def ttGet : TemplateTranslation → ParsingToken → Option DeducedType
  | [], _ => none
  | (k, v) :: rest, key => if k = key then v else ttGet rest key

/-- `resolveTemplateType(templateTranslate, type)` of symbolic.ts.  Note the
function-symbol case returns `undefined` (an inline FIXME in the source:
template resolution of function handles is not implemented). -/
def resolveTemplateType (templateTranslate : TemplateTranslation)
    (type : Option DeducedType) : Option DeducedType :=
  match type with
  | none => none
  | some t =>
    match t.symbolType with
    | .inr _ => none
    | .inl st =>
      if st.sourceType ≠ SourceType.prim .template then some t
      else if ttHas templateTranslate st.declaredPlace then
        ttGet templateTranslate st.declaredPlace
      else some t

/-- `resolveTemplateTypes` of symbolic.ts: fold a chain of translation maps
left to right over a type. -/
def resolveTemplateTypes (templateTranslate : List (Option TemplateTranslation))
    (type : Option DeducedType) : Option DeducedType :=
  templateTranslate.foldl
    (fun arg t => match t with
      | some tr => resolveTemplateType tr arg
      | none => arg)
    type

/-! ## Claim C4: template substitution leaves non-template types unchanged -/

/-- A deduced type whose symbol is a function, at which the claim fails. -/
def dtFunctionDemo : DeducedType :=
  { symbolType := .inr (.mk (demoFuncTok 50) none) }

/-- Counterexample to C4 as stated: on a function-typed deduced value
`resolveTemplateType` returns `undefined`, not the input unchanged. -/
theorem resolveTemplateType_function_dropped_cex :
    resolveTemplateType [] (some dtFunctionDemo) = none ∧
    some dtFunctionDemo ≠ (none : Option DeducedType) := by
  exact ⟨rfl, by simp⟩

/-- C4 as amended.  `resolveTemplateType` returns the concrete binding when
the type is a template parameter present in the map; it returns `undefined`
when the deduced type refers to a function symbol (the known gap); in every
other case — non-template type, or template parameter absent from the map —
it returns the input unchanged. -/
theorem resolveTemplateType_characterization
    (tt : TemplateTranslation) (t : DeducedType) :
    (resolveTemplateType tt none = none) ∧
    (∀ f, t.symbolType = .inr f → resolveTemplateType tt (some t) = none) ∧
    (∀ st, t.symbolType = .inl st →
      st.sourceType ≠ SourceType.prim .template →
      resolveTemplateType tt (some t) = some t) ∧
    (∀ st, t.symbolType = .inl st →
      st.sourceType = SourceType.prim .template →
      ttHas tt st.declaredPlace = true →
      resolveTemplateType tt (some t) = ttGet tt st.declaredPlace) ∧
    (∀ st, t.symbolType = .inl st →
      st.sourceType = SourceType.prim .template →
      ttHas tt st.declaredPlace = false →
      resolveTemplateType tt (some t) = some t) := by
  refine ⟨rfl, ?_, ?_, ?_, ?_⟩
  ·
    intro f hf
    simp [resolveTemplateType, hf]
  ·
    intro st hst hnt
    simp [resolveTemplateType, hst, hnt]
  ·
    intro st hst htpl hhas
    simp [resolveTemplateType, hst, htpl, hhas]
  ·
    intro st hst htpl hhas
    simp [resolveTemplateType, hst, htpl, hhas]

/-- A template-parameter type and a plain class type used by the C4 witness. -/
def tplParamTok : ParsingToken := createVirtualToken .identifier "T" 60

/-- The template-parameter deduced type of the C4 witness. -/
def dtTemplateDemo : DeducedType :=
  { symbolType := .inl { declaredPlace := tplParamTok,
                         sourceType := .prim .template } }

/-- The concrete binding of the C4 witness. -/
def dtBindingDemo : DeducedType := { symbolType := .inl builtinIntType }

/-- A non-template deduced type of the C4 witness. -/
def dtPlainDemo : DeducedType :=
  { symbolType := .inl { declaredPlace := createVirtualToken .identifier "C" 61,
                         sourceType := .classNode 7 } }

/-- Closed instance of amended C4: the bound template parameter is
substituted, the plain class type passes through unchanged. -/
theorem resolveTemplateType_characterization_witness :
    resolveTemplateType [(tplParamTok, some dtBindingDemo)]
        (some dtTemplateDemo) = some dtBindingDemo ∧
    resolveTemplateType [(tplParamTok, some dtBindingDemo)]
        (some dtPlainDemo) = some dtPlainDemo := by
  constructor
  ·
    have h := resolveTemplateType_characterization
      [(tplParamTok, some dtBindingDemo)] dtTemplateDemo
    have h4 := h.2.2.2.1 _ rfl rfl (by decide)
    rw [h4]
    decide
  ·
    have h := resolveTemplateType_characterization
      [(tplParamTok, some dtBindingDemo)] dtPlainDemo
    exact h.2.2.1 _ rfl (by decide)

/-! ## Parser (parser.ts)

The cursor (`ReadingState`) is embedded as a position into a fixed token
list.  Each entry point returns a `PRes`: `ok` carries the position after
the call and the produced value (`TriedParse` for the tri-state entry
points, `Option` for the null-returning ones); `crash` embeds a JS
`TypeError` from reading a field of a missing token (only possible on the
empty token list, since `next()` clamps to the last token otherwise);
`fuelOut` means the recursion bound was exceeded — a run that yields
`fuelOut` for every bound models nontermination.  Every recursive entry
point spends one unit of fuel and hands the rest to its callees;
non-recursive entry points pass fuel through unchanged.  Diagnostics and
highlight annotations are outputs to external collaborators that no claim
below measures; they are elided. -/

/-- `TokenObject` of token.ts (not in the snapshot): the fields the parser
reads are `kind`, `text` and the location, the latter embedded as `uid`. -/
structure TokenObject where
  kind : TokenKind
  text : String
  uid : Nat
deriving DecidableEq, Repr

/-- `TriedParse<T> = 'mismatch' | 'pending' | T` of parser.ts. -/
inductive TriedParse (α : Type) where
  | mismatch
  | pending
  | done (val : α)
deriving DecidableEq

/-- Outcome of running a parser entry point: normal return with the new
cursor position, crash (field access on a missing token), or fuel
exhaustion. -/
inductive PRes (α : Type) where
  | ok (pos : Nat) (val : α)
  | crash
  | fuelOut
deriving DecidableEq

/-! ### Syntax nodes (nodes.ts, shapes taken from the constructor calls in
parser.ts; constructor arguments that parser.ts always passes as constants
are elided or held at placeholder types) -/

/-- `NodeDATATYPE(next)`. -/
structure NodeDATATYPE where
  identifier : TokenObject

/-- `NodeTYPE(false, null, datatype, [], false, false)`; the scope and
generic payloads, never produced by this parser, are placeholder types. -/
structure NodeTYPE where
  isConst : Bool
  scope : Option Unit
  datatype : NodeDATATYPE
  generics : List Unit
  isArray : Bool
  isRef : Bool

/-- `NodeEXPRTERM2(pre, exprvalue, stop)`: optional prefix operator token,
the value token, optional single postfix marker token. -/
structure NodeEXPRTERM2 where
  pre : Option TokenObject
  value : TokenObject
  stop : Option TokenObject

/-- `NodeEXPR(exprterm, exprop, tail)`: right-recursive operator chain. -/
inductive NodeEXPR where
  | mk (term : NodeEXPRTERM2) (op : Option TokenObject) (tail : Option NodeEXPR)

/-- `NodeCONDITION(expr, null, null)`: the ternary branches are never
produced by this parser. -/
structure NodeCONDITION where
  expr : NodeEXPR
  trueSide : Option Unit
  falseSide : Option Unit

/-- `NodeASSIGN(condition, op, assign)`: right-recursive assignment chain. -/
inductive NodeASSIGN where
  | mk (condition : NodeCONDITION) (op : Option TokenObject)
       (tail : Option NodeASSIGN)

/-- `NodeRETURN(assign)`. -/
structure NodeRETURN where
  assign : NodeASSIGN

/-- `NodeFOR()`: the for-statement node is an unpopulated placeholder. -/
inductive NodeFOR where
  | mk

mutual

/-- `NodeIF(assign, ts, fs)`: condition, consequent, optional alternative. -/
inductive NodeIF where
  | mk (condition : NodeASSIGN) (thenStat : NodeSTATEMENT)
       (elseStat : Option NodeSTATEMENT)

/-- `NodeWHILE(assign, statement)`. -/
inductive NodeWHILE where
  | mk (condition : NodeASSIGN) (body : NodeSTATEMENT)

/-- `NodeSTATEMENT`: the statement union actually produced by
`parseSTATEMENT` (if, while, return; the for node is dropped by the
commented-out success path). -/
inductive NodeSTATEMENT where
  | ofIf (n : NodeIF)
  | ofWhile (n : NodeWHILE)
  | ofReturn (n : NodeRETURN)

end

/-- `NodeVAR(type, identifier, expr)`. -/
structure NodeVAR where
  type : NodeTYPE
  identifier : TokenObject
  expr : NodeEXPR

/-- `NodeSTATBLOCK`: the statement/variable entries pushed by
`parseSTATBLOCK`. -/
abbrev NodeSTATBLOCK := List (NodeSTATEMENT ⊕ NodeVAR)

/-- `NodePARAMLIST`: `(type, optional identifier)` pairs. -/
abbrev NodePARAMLIST := List (NodeTYPE × Option TokenObject)

/-- `NodeFunc(...)`: entity modifiers, access modifier, ref flag, const
flag and func attribute are always passed as constants by parser.ts and
elided. -/
structure NodeFunc where
  ret : NodeTYPE
  identifier : TokenObject
  paramlist : NodePARAMLIST
  statblock : NodeSTATBLOCK

/-- `NodeScript(funcs)`. -/
structure NodeScript where
  funcs : List NodeFunc

/-! ### Cursor primitives (`ReadingState`) -/

section Parser

variable (toks : List TokenObject)

/-- `ReadingState.isEnd()`. -/
def isEnd (pos : Nat) : Bool := toks.length ≤ pos

/-- `ReadingState.next()`: at or past the end return the final token
(`tokens[tokens.length - 1]`), which is missing exactly when the token
list is empty. -/
def nextToken (pos : Nat) : Option TokenObject :=
  if toks.length ≤ pos then toks.get? (toks.length - 1) else toks.get? pos

/-- `ReadingState.expect(word, ...)`: emit a diagnostic and return `false`
on end of input, a non-reserved token or a text mismatch (without moving);
otherwise confirm the token (advance one) and return `true`.  The result
is `none` when the location read for the diagnostic crashes (empty token
list). -/
def expect (pos : Nat) (word : String) : Option (Nat × Bool) :=
  match nextToken toks pos with
  | none => none
  | some t =>
    if isEnd toks pos then some (pos, false)
    else if t.kind ≠ TokenKind.reserved then some (pos, false)
    else if t.text ≠ word then some (pos, false)
    else some (pos + 1, true)

/-! ### Leaf productions -/

/-- `parseDATATYPE`: reads one token and always produces a datatype node
for it (the identifier/builtin highlight distinction is elided). -/
def parseDATATYPE (pos : Nat) : Option (Nat × NodeDATATYPE) :=
  match nextToken toks pos with
  | none => none
  | some t => some (pos + 1, { identifier := t })

/-- `parseTYPE`: wraps the datatype; since `parseDATATYPE` always succeeds,
the null result of the source signature is never produced. -/
def parseTYPE (pos : Nat) : Option (Nat × Option NodeTYPE) :=
  match parseDATATYPE toks pos with
  | none => none
  | some (p, dt) =>
      some (p, some { isConst := false, scope := none, datatype := dt,
                      generics := [], isArray := false, isRef := false })

/-- `parseEXPRVALUE`: a reserved token is rejected with a diagnostic
(null, no move); any other token is consumed as the value. -/
def parseEXPRVALUE (pos : Nat) : Option (Nat × Option TokenObject) :=
  match nextToken toks pos with
  | none => none
  | some t =>
    if t.kind = TokenKind.reserved then some (pos, none)
    else some (pos + 1, some t)

/-- The prefix-operator candidate texts of `parseEXPRTERM2`. -/
def exprPreOps : List String := ["-", "+", "!", "++", "--", "~", "@"]

/-- The postfix-marker candidate texts of `parseEXPRTERM2`. -/
def exprPostOpStops : List String := [".", "[", "(", "++", "--"]

/-- `parseEXPRTERM2`: optional single prefix operator, a value, optional
single postfix marker token. -/
def parseEXPRTERM2 (pos : Nat) : Option (Nat × Option NodeEXPRTERM2) :=
  match nextToken toks pos with
  | none => none
  | some t0 =>
    let pre : Option TokenObject × Nat :=
      if t0.text ∈ exprPreOps then (some t0, pos + 1) else (none, pos)
    match parseEXPRVALUE toks pre.2 with
    | none => none
    | some (p2, none) => some (p2, none)
    | some (p2, some v) =>
      match nextToken toks p2 with
      | none => none
      | some t2 =>
        if t2.text ∈ exprPostOpStops then
          some (p2 + 1, some { pre := pre.1, value := v, stop := some t2 })
        else
          some (p2, some { pre := pre.1, value := v, stop := none })

/-- `parseEXPRTERM`: delegates to `parseEXPRTERM2` and passes its result
(or null) through. -/
def parseEXPRTERM (pos : Nat) : Option (Nat × Option NodeEXPRTERM2) :=
  parseEXPRTERM2 toks pos

/-- The binary-operator candidate texts of `parseEXPROP`. -/
def exprOpCandidates : List String :=
  ["+", "-", "*", "/", "%", "**", "==", "!=", "<", "<=", ">", ">=", "is",
   "&&", "||", "^^", "and", "or", "xor", "&", "|", "^", "<<", ">>", ">>>"]

/-- `parseEXPROP`: consume the next token when its text is an expression
operator candidate; null (without moving) otherwise. -/
def parseEXPROP (pos : Nat) : Option (Nat × Option TokenObject) :=
  match nextToken toks pos with
  | none => none
  | some t =>
    if t.text ∈ exprOpCandidates then some (pos + 1, some t)
    else some (pos, none)

/-- The assignment-operator candidate texts of `parseASSIGNOP`. -/
def assignOpCandidates : List String :=
  ["=", "+=", "-=", "*=", "/=", "|=", "&=", "^=", "%=", "**=",
   "<<=", ">>=", ">>>="]

/-- `parseASSIGNOP`: consume the next token when its text is an assignment
operator candidate; null (without moving) otherwise. -/
def parseASSIGNOP (pos : Nat) : Option (Nat × Option TokenObject) :=
  match nextToken toks pos with
  | none => none
  | some t =>
    if t.text ∈ assignOpCandidates then some (pos + 1, some t)
    else some (pos, none)

/-! ### Expression productions -/

/-- `parseEXPR`: term, then optionally an operator and a right-recursive
tail (`EXPRTERM {EXPROP EXPRTERM}` parsed right-recursively). -/
def parseEXPR : Nat → Nat → PRes (Option NodeEXPR)
  | 0, _ => .fuelOut
  | fuel + 1, pos =>
    match parseEXPRTERM toks pos with
    | none => .crash
    | some (p1, none) => .ok p1 none
    | some (p1, some term) =>
      match parseEXPROP toks p1 with
      | none => .crash
      | some (p2, none) => .ok p2 (some (.mk term none none))
      | some (p2, some op) =>
        match parseEXPR fuel p2 with
        | .ok p3 tail => .ok p3 (some (.mk term (some op) tail))
        | e => e

/-- `parseCONDITION`: an expression (the ternary tail is not parsed). -/
def parseCONDITION (fuel pos : Nat) : PRes (Option NodeCONDITION) :=
  match parseEXPR toks fuel pos with
  | .crash => .crash
  | .fuelOut => .fuelOut
  | .ok p none => .ok p none
  | .ok p (some e) =>
      .ok p (some { expr := e, trueSide := none, falseSide := none })

/-- `parseASSIGN`: condition, then optionally an assignment operator and a
right-recursive tail. -/
def parseASSIGN : Nat → Nat → PRes (Option NodeASSIGN)
  | 0, _ => .fuelOut
  | fuel + 1, pos =>
    match parseCONDITION toks fuel pos with
    | .crash => .crash
    | .fuelOut => .fuelOut
    | .ok p1 none => .ok p1 none
    | .ok p1 (some cond) =>
      match parseASSIGNOP toks p1 with
      | none => .crash
      | some (p2, none) => .ok p2 (some (.mk cond none none))
      | some (p2, some op) =>
        match parseASSIGN fuel p2 with
        | .ok p3 tail => .ok p3 (some (.mk cond (some op) tail))
        | e => e

/-! ### Statement productions -/

/-- `parseFOR`: the placeholder for-parser; it consumes the `for` keyword
and immediately succeeds with an empty node. -/
def parseFOR (pos : Nat) : PRes (TriedParse NodeFOR) :=
  match nextToken toks pos with
  | none => .crash
  | some t =>
    if t.text = "for" then .ok (pos + 1) (.done .mk)
    else .ok pos .mismatch

/-- `parseRETURN`: `return`, an assignment, `;`. -/
def parseRETURN (fuel pos : Nat) : PRes (TriedParse NodeRETURN) :=
  match nextToken toks pos with
  | none => .crash
  | some t =>
    if t.text = "return" then
      match parseASSIGN toks fuel (pos + 1) with
      | .crash => .crash
      | .fuelOut => .fuelOut
      | .ok p1 none => .ok p1 .pending
      | .ok p1 (some a) =>
        match expect toks p1 ";" with
        | none => .crash
        | some (p2, _) => .ok p2 (.done { assign := a })
    else .ok pos .mismatch

mutual

/-- `parseSTATEMENT`: dispatch over if / for / while / return.  Note that
a successful `parseFOR` falls through (its success return is commented out
in the source), leaving the `for` keyword consumed. -/
def parseSTATEMENT : Nat → Nat → PRes (TriedParse NodeSTATEMENT)
  | 0, _ => .fuelOut
  | fuel + 1, pos =>
    match parseIF fuel pos with
    | .crash => .crash
    | .fuelOut => .fuelOut
    | .ok p .pending => .ok p .pending
    | .ok p (.done nif) => .ok p (.done (.ofIf nif))
    | .ok p .mismatch =>
      match parseFOR toks p with
      | .crash => .crash
      | .fuelOut => .fuelOut
      | .ok p2 r2 =>
        match r2 with
        | .pending => .ok p2 .pending
        | _ =>
          match parseWHILE fuel p2 with
          | .crash => .crash
          | .fuelOut => .fuelOut
          | .ok p3 .pending => .ok p3 .pending
          | .ok p3 (.done w) => .ok p3 (.done (.ofWhile w))
          | .ok p3 .mismatch =>
            match parseRETURN toks fuel p3 with
            | .crash => .crash
            | .fuelOut => .fuelOut
            | .ok p4 .pending => .ok p4 .pending
            | .ok p4 (.done r) => .ok p4 (.done (.ofReturn r))
            | .ok p4 .mismatch => .ok p4 .mismatch

/-- `parseIF`: `if ( ASSIGN ) STATEMENT [else STATEMENT]`.  A failed
condition or consequent yields `pending`; a failed alternative yields the
if node with the alternative dropped.  (The `else` keyword itself is never
consumed before the alternative is attempted.) -/
def parseIF : Nat → Nat → PRes (TriedParse NodeIF)
  | 0, _ => .fuelOut
  | fuel + 1, pos =>
    match nextToken toks pos with
    | none => .crash
    | some t =>
      if t.text = "if" then
        match expect toks (pos + 1) "(" with
        | none => .crash
        | some (p1, _) =>
          match parseASSIGN toks fuel p1 with
          | .crash => .crash
          | .fuelOut => .fuelOut
          | .ok p2 none => .ok p2 .pending
          | .ok p2 (some a) =>
            match expect toks p2 ")" with
            | none => .crash
            | some (p3, _) =>
              match parseSTATEMENT fuel p3 with
              | .crash => .crash
              | .fuelOut => .fuelOut
              | .ok p4 .mismatch => .ok p4 .pending
              | .ok p4 .pending => .ok p4 .pending
              | .ok p4 (.done ts) =>
                match nextToken toks p4 with
                | none => .crash
                | some t2 =>
                  if t2.text = "else" then
                    match parseSTATEMENT fuel p4 with
                    | .crash => .crash
                    | .fuelOut => .fuelOut
                    | .ok p5 .mismatch => .ok p5 (.done (.mk a ts none))
                    | .ok p5 .pending => .ok p5 (.done (.mk a ts none))
                    | .ok p5 (.done fs) => .ok p5 (.done (.mk a ts (some fs)))
                  else .ok p4 (.done (.mk a ts none))
      else .ok pos .mismatch

/-- `parseWHILE`: `while ( ASSIGN ) STATEMENT`. -/
def parseWHILE : Nat → Nat → PRes (TriedParse NodeWHILE)
  | 0, _ => .fuelOut
  | fuel + 1, pos =>
    match nextToken toks pos with
    | none => .crash
    | some t =>
      if t.text = "while" then
        match expect toks (pos + 1) "(" with
        | none => .crash
        | some (p1, _) =>
          match parseASSIGN toks fuel p1 with
          | .crash => .crash
          | .fuelOut => .fuelOut
          | .ok p2 none => .ok p2 .pending
          | .ok p2 (some a) =>
            match expect toks p2 ")" with
            | none => .crash
            | some (p3, _) =>
              match parseSTATEMENT fuel p3 with
              | .crash => .crash
              | .fuelOut => .fuelOut
              | .ok p4 .mismatch => .ok p4 .pending
              | .ok p4 .pending => .ok p4 .pending
              | .ok p4 (.done s) => .ok p4 (.done (.mk a s))
      else .ok pos .mismatch

end

/-- `parseVAR`: `TYPE IDENTIFIER = EXPR ;`.  A failed expression yields
null with the cursor already advanced past the type and identifier. -/
def parseVAR (fuel pos : Nat) : PRes (Option NodeVAR) :=
  match parseTYPE toks pos with
  | none => .crash
  | some (p1, none) => .ok p1 none
  | some (p1, some ty) =>
    match nextToken toks p1 with
    | none => .crash
    | some idTok =>
      match expect toks (p1 + 1) "=" with
      | none => .crash
      | some (p2, _) =>
        match parseEXPR toks fuel p2 with
        | .crash => .crash
        | .fuelOut => .fuelOut
        | .ok p3 none => .ok p3 none
        | .ok p3 (some e) =>
          match expect toks p3 ";" with
          | none => .crash
          | some (p4, _) =>
            .ok p4 (some { type := ty, identifier := idTok, expr := e })

/-- The `{VAR | STATEMENT}` loop of `parseSTATBLOCK`: stop at end of input
or a closing brace; a pending statement skips one token; a mismatched
statement falls back to a variable declaration; a failed variable
declaration skips one token. -/
def statblockLoop : Nat → Nat → PRes (List (NodeSTATEMENT ⊕ NodeVAR))
  | 0, _ => .fuelOut
  | fuel + 1, pos =>
    if isEnd toks pos then .ok pos []
    else
      match nextToken toks pos with
      | none => .crash
      | some t =>
        if t.text = "\x7d" then .ok pos []
        else
          match parseSTATEMENT toks fuel pos with
          | .crash => .crash
          | .fuelOut => .fuelOut
          | .ok p .pending => statblockLoop fuel (p + 1)
          | .ok p (.done s) =>
            match statblockLoop fuel p with
            | .ok q rest => .ok q (Sum.inl s :: rest)
            | e => e
          | .ok p .mismatch =>
            match parseVAR toks fuel p with
            | .crash => .crash
            | .fuelOut => .fuelOut
            | .ok q (some v) =>
              match statblockLoop fuel q with
              | .ok q2 rest => .ok q2 (Sum.inr v :: rest)
              | e => e
            | .ok q none => statblockLoop fuel (q + 1)

/-- `parseSTATBLOCK`: `{`, the statement loop, `}`. -/
def parseSTATBLOCK (fuel pos : Nat) : PRes NodeSTATBLOCK :=
  match expect toks pos "\x7b" with
  | none => .crash
  | some (p1, _) =>
    match statblockLoop toks fuel p1 with
    | .crash => .crash
    | .fuelOut => .fuelOut
    | .ok p2 stmts =>
      match expect toks p2 "\x7d" with
      | none => .crash
      | some (p3, _) => .ok p3 stmts

/-- The parameter loop of `parsePARAMLIST`: stop at end of input, `)` or a
missing comma; each entry is a type with an optional identifier. -/
def paramlistLoop :
    Nat → Nat → NodePARAMLIST → PRes NodePARAMLIST
  | 0, _, _ => .fuelOut
  | fuel + 1, pos, acc =>
    if isEnd toks pos then .ok pos acc
    else
      match nextToken toks pos with
      | none => .crash
      | some t =>
        if t.text = ")" then .ok pos acc
        else
          match (if acc.length > 0 then expect toks pos ","
                 else some (pos, true)) with
          | none => .crash
          | some (p1, b) =>
            if b = false then .ok p1 acc
            else
              match parseTYPE toks p1 with
              | none => .crash
              | some (p2, none) => .ok p2 acc
              | some (p2, some ty) =>
                match nextToken toks p2 with
                | none => .crash
                | some t2 =>
                  if t2.kind = TokenKind.identifier then
                    paramlistLoop fuel (p2 + 1) (acc ++ [(ty, some t2)])
                  else paramlistLoop fuel p2 (acc ++ [(ty, none)])

/-- `parsePARAMLIST`: `(`, the parameter loop, `)`. -/
def parsePARAMLIST (fuel pos : Nat) : PRes NodePARAMLIST :=
  match expect toks pos "(" with
  | none => .crash
  | some (p1, _) =>
    match paramlistLoop toks fuel p1 [] with
    | .crash => .crash
    | .fuelOut => .fuelOut
    | .ok p2 ps =>
      match expect toks p2 ")" with
      | none => .crash
      | some (p3, _) => .ok p3 ps

/-- `parseFUNC`: return type, identifier (stored without reading its
fields, so no crash in the source; the script loop only calls this on a
non-empty list, where `nextToken` is total), parameter list, statement
block. -/
def parseFUNC (fuel pos : Nat) : PRes (Option NodeFunc) :=
  match parseTYPE toks pos with
  | none => .crash
  | some (p1, none) => .ok p1 none
  | some (p1, some ret) =>
    match nextToken toks p1 with
    | none => .crash
    | some idTok =>
      match parsePARAMLIST toks fuel (p1 + 1) with
      | .crash => .crash
      | .fuelOut => .fuelOut
      | .ok p2 params =>
        match parseSTATBLOCK toks fuel p2 with
        | .crash => .crash
        | .fuelOut => .fuelOut
        | .ok p3 sb =>
          .ok p3 (some { ret := ret, identifier := idTok,
                         paramlist := params, statblock := sb })

/-- `parseSCRIPT`: repeatedly parse functions until the token stream is
exhausted (a null function continues the loop from the new position). -/
def parseSCRIPT : Nat → Nat → PRes (List NodeFunc)
  | 0, _ => .fuelOut
  | fuel + 1, pos =>
    if isEnd toks pos then .ok pos []
    else
      match parseFUNC toks fuel pos with
      | .crash => .crash
      | .fuelOut => .fuelOut
      | .ok p none => parseSCRIPT fuel p
      | .ok p (some f) =>
        match parseSCRIPT fuel p with
        | .ok q fs => .ok q (f :: fs)
        | e => e

/-- `parseFromTokens(tokens)`: construct the cursor at position 0 and parse
a script. -/
def parseFromTokens (fuel : Nat) : PRes NodeScript :=
  match parseSCRIPT toks fuel 0 with
  | .ok p fs => .ok p { funcs := fs }
  | .crash => .crash
  | .fuelOut => .fuelOut

end Parser

/-! ## Concrete tokens for the parser claims -/

/-- A reserved token with the given text and location. -/
def resTok (text : String) (u : Nat) : TokenObject :=
  { kind := .reserved, text := text, uid := u }

/-- An identifier token with the given text and location. -/
def identTok (text : String) (u : Nat) : TokenObject :=
  { kind := .identifier, text := text, uid := u }

/-! ## Claim C5: a malformed if-consequent -/

/-- Token sequence `if ( x ) ;` — the condition parses, the consequent
(`;`) matches no statement production. -/
def toksC5 : List TokenObject :=
  [resTok "if" 0, resTok "(" 1, identTok "x" 2, resTok ")" 3, resTok ";" 4]

/-- Counterexample to C5 as stated: on `if ( x ) ;` the if-parser reports
committed-incomplete (`pending`) and produces no if node at all, instead
of an if node retaining the parsed condition. -/
theorem parseIF_malformed_consequent_cex :
    parseIF toksC5 8 0 = PRes.ok 4 TriedParse.pending ∧
    ∀ (p : Nat) (n : NodeIF),
      parseIF toksC5 8 0 ≠ PRes.ok p (TriedParse.done n) := by
  refine ⟨rfl, ?_⟩
  intro p n h
  rw [show parseIF toksC5 8 0 = PRes.ok 4 TriedParse.pending from rfl] at h
  injection h with h1 h2
  exact TriedParse.noConfusion h2

/-- C5 as amended.  When the `if` keyword and the parenthesised condition
parse but the consequent statement is malformed (its parse reports
no-match or committed-incomplete), `parseIF` returns committed-incomplete
(`pending`), discarding the condition; the "condition parsed, branches
dropped" degraded node is produced only for a malformed `else`
alternative, not for a malformed consequent. -/
theorem parseIF_pending_on_malformed_consequent
    (toks : List TokenObject) (fuel pos : Nat)
    {p1 p2 p3 pb : Nat} {b1 b2 : Bool} {t : TokenObject} {a : NodeASSIGN}
    {r : TriedParse NodeSTATEMENT}
    (hnext : nextToken toks pos = some t)
    (hif : t.text = "if")
    (hexp1 : expect toks (pos + 1) "(" = some (p1, b1))
    (hassign : parseASSIGN toks fuel p1 = .ok p2 (some a))
    (hexp2 : expect toks p2 ")" = some (p3, b2))
    (hstmt : parseSTATEMENT toks fuel p3 = .ok pb r)
    (hbad : r = .mismatch ∨ r = .pending) :
    parseIF toks (fuel + 1) pos = .ok pb .pending := by
  rcases hbad with rfl | rfl <;>
    simp [parseIF, hnext, hif, hexp1, hassign, hexp2, hstmt]

/-- Closed instance of amended C5 at the `if ( x ) ;` input. -/
theorem parseIF_pending_on_malformed_consequent_witness :
    parseSTATEMENT toksC5 7 4 = PRes.ok 4 TriedParse.mismatch ∧
    parseIF toksC5 8 0 = PRes.ok 4 TriedParse.pending := by
  refine ⟨rfl, ?_⟩
  exact parseIF_pending_on_malformed_consequent toksC5 7 0
    rfl rfl rfl rfl rfl rfl (Or.inl rfl)

/-! ## Claim C6: no-match leaves the cursor unchanged -/

/-- Token sequence `for ;`: the placeholder for-parser consumes `for` and
succeeds, but its success is ignored and the dispatcher goes on to report
no-match from the advanced position. -/
def toksC6 : List TokenObject := [resTok "for" 0, resTok ";" 1]

/-- Counterexample to C6 as stated: `parseSTATEMENT` on `for ;` reports
no-match with the cursor moved from 0 to 1 (the `for` token has been
consumed). -/
theorem parseSTATEMENT_for_consumes_cex :
    parseSTATEMENT toksC6 8 0 = PRes.ok 1 TriedParse.mismatch ∧
    (1 : Nat) ≠ 0 := ⟨rfl, by decide⟩

theorem parseIF_mismatch_pos (toks : List TokenObject) (fuel pos p : Nat)
    (h : parseIF toks fuel pos = .ok p .mismatch) : p = pos := by
  cases fuel with
  | zero => exact absurd h (by simp [parseIF])
  | succ n =>
      simp only [parseIF] at h
      repeat' split at h
      all_goals simp_all

theorem parseFOR_mismatch_pos (toks : List TokenObject) (pos p : Nat)
    (h : parseFOR toks pos = .ok p .mismatch) : p = pos := by
  simp only [parseFOR] at h
  repeat' split at h
  all_goals simp_all

theorem parseWHILE_mismatch_pos (toks : List TokenObject) (fuel pos p : Nat)
    (h : parseWHILE toks fuel pos = .ok p .mismatch) : p = pos := by
  cases fuel with
  | zero => exact absurd h (by simp [parseWHILE])
  | succ n =>
      simp only [parseWHILE] at h
      repeat' split at h
      all_goals simp_all

theorem parseRETURN_mismatch_pos (toks : List TokenObject) (fuel pos p : Nat)
    (h : parseRETURN toks fuel pos = .ok p .mismatch) : p = pos := by
  simp only [parseRETURN] at h
  repeat' split at h
  all_goals simp_all

theorem parseSTATEMENT_mismatch_pos (toks : List TokenObject)
    (fuel pos p : Nat) (t : TokenObject)
    (hnext : nextToken toks pos = some t) (hnotfor : t.text ≠ "for")
    (h : parseSTATEMENT toks fuel pos = .ok p .mismatch) : p = pos := by
  cases fuel with
  | zero => exact absurd h (by simp [parseSTATEMENT])
  | succ n =>
      simp only [parseSTATEMENT] at h
      cases hIF : parseIF toks n pos with
      | crash => simp only [hIF] at h; exact absurd h (by simp)
      | fuelOut => simp only [hIF] at h; exact absurd h (by simp)
      | ok q r1 =>
        simp only [hIF] at h
        cases r1 with
        | pending => exact absurd h (by simp)
        | done nif => exact absurd h (by simp)
        | mismatch =>
          have hq : q = pos := parseIF_mismatch_pos toks n pos q hIF
          subst hq
          simp only [show parseFOR toks q = .ok q .mismatch by
            simp [parseFOR, hnext, hnotfor]] at h
          cases hW : parseWHILE toks n q with
          | crash => simp only [hW] at h; exact absurd h (by simp)
          | fuelOut => simp only [hW] at h; exact absurd h (by simp)
          | ok q2 r2 =>
            simp only [hW] at h
            cases r2 with
            | pending => exact absurd h (by simp)
            | done w => exact absurd h (by simp)
            | mismatch =>
              have hq2 : q2 = q := parseWHILE_mismatch_pos toks n q q2 hW
              subst hq2
              cases hR : parseRETURN toks n q2 with
              | crash => simp only [hR] at h; exact absurd h (by simp)
              | fuelOut => simp only [hR] at h; exact absurd h (by simp)
              | ok q3 r3 =>
                simp only [hR] at h
                cases r3 with
                | pending => exact absurd h (by simp)
                | done rr => exact absurd h (by simp)
                | mismatch =>
                  have hq3 : q3 = q2 :=
                    parseRETURN_mismatch_pos toks n q2 q3 hR
                  simp only [PRes.ok.injEq] at h
                  omega

/-- C6 as amended.  Every tri-state entry point that reports no-match
(`mismatch`) leaves the cursor where it was — except `parseSTATEMENT` on
an input starting with `for`: the placeholder for-parser consumes the
`for` keyword, its successful stub result is dropped (the success return
is commented out in the source), and the dispatcher can then report
no-match with the cursor already advanced.  For any other starting token,
`parseSTATEMENT`'s no-match leaves the cursor unchanged. -/
theorem mismatch_preserves_position (toks : List TokenObject) :
    (∀ fuel pos p, parseIF toks fuel pos = .ok p .mismatch → p = pos) ∧
    (∀ pos p, parseFOR toks pos = .ok p .mismatch → p = pos) ∧
    (∀ fuel pos p, parseWHILE toks fuel pos = .ok p .mismatch → p = pos) ∧
    (∀ fuel pos p, parseRETURN toks fuel pos = .ok p .mismatch → p = pos) ∧
    (∀ fuel pos p t, nextToken toks pos = some t → t.text ≠ "for" →
      parseSTATEMENT toks fuel pos = .ok p .mismatch → p = pos) :=
  ⟨fun fuel pos p => parseIF_mismatch_pos toks fuel pos p,
   fun pos p => parseFOR_mismatch_pos toks pos p,
   fun fuel pos p => parseWHILE_mismatch_pos toks fuel pos p,
   fun fuel pos p => parseRETURN_mismatch_pos toks fuel pos p,
   fun fuel pos p t hnext hnf =>
     parseSTATEMENT_mismatch_pos toks fuel pos p t hnext hnf⟩

/-- Closed instance of amended C6: a statement dispatch over `;` reports
no-match at the original position. -/
theorem mismatch_preserves_position_witness :
    parseSTATEMENT [resTok ";" 0] 5 0 = PRes.ok 0 TriedParse.mismatch ∧
    (0 : Nat) = 0 := by
  refine ⟨rfl, ?_⟩
  exact (mismatch_preserves_position [resTok ";" 0]).2.2.2.2 5 0 0
    (resTok ";" 0) rfl (by decide) rfl

/-! ## Claim C7: the postfix chain is limited to one marker token -/

/-- Token sequence `a . b . c ( )`. -/
def toksC7 : List TokenObject :=
  [identTok "a" 0, resTok "." 1, identTok "b" 2, resTok "." 3,
   identTok "c" 4, resTok "(" 5, resTok ")" 6]

/-- C7 evaluation at the failing input: on `a . b . c ( )` the
expression-term parser consumes only `a` and the first `.` (cursor 2 of
7), recording a single postfix marker token without even parsing its
operand — the documented repeatable postfix chain is not implemented. -/
theorem parseEXPRTERM2_single_suffix_eval :
    parseEXPRTERM2 toksC7 0 =
      some (2, some { pre := none, value := identTok "a" 0,
                      stop := some (resTok "." 1) }) ∧
    (2 : Nat) < toksC7.length := by
  exact ⟨rfl, by decide⟩

/-! ## Claim C9: next() totality and the empty token sequence -/

/-- Counterexample to C9 as stated: on the empty token sequence the public
entry returns a well-defined empty script without ever reading a token —
its behaviour is not undefined. -/
theorem parseFromTokens_empty_defined_cex :
    parseFromTokens [] 1 = PRes.ok 0 { funcs := [] } ∧
    parseFromTokens [] 1 ≠ PRes.crash := by
  refine ⟨rfl, ?_⟩
  intro h
  rw [show parseFromTokens [] 1 = PRes.ok 0 { funcs := [] } from rfl] at h
  exact PRes.noConfusion h

/-- C9 as amended.  For every non-empty token sequence `next()` is total:
past the end it returns the final token, in range it returns the token at
the cursor, so no entry point reads out of bounds; for the empty sequence
the script loop exits on its end check before any `next()` call and
`parseFromTokens` returns an empty script node (there is no undefined
behaviour at the public entry). -/
theorem next_total_and_empty_script (toks : List TokenObject) (pos : Nat)
    (hne : toks ≠ []) :
    (∃ t, nextToken toks pos = some t) ∧
    (toks.length ≤ pos →
      nextToken toks pos = some (toks.getLast hne)) ∧
    (pos < toks.length → nextToken toks pos = toks.get? pos) ∧
    (∀ fuel, parseFromTokens [] (fuel + 1) = PRes.ok 0 { funcs := [] }) := by
  have hlen : 0 < toks.length := List.length_pos.mpr hne
  refine ⟨?_, ?_, ?_, ?_⟩
  · unfold nextToken
    by_cases h : toks.length ≤ pos
    · rw [if_pos h]
      exact ⟨_, List.get?_eq_get (by omega)⟩
    · rw [if_neg h]
      exact ⟨_, List.get?_eq_get (by omega)⟩
  · intro h
    unfold nextToken
    rw [if_pos h, List.get?_eq_get (by omega), List.getLast_eq_getElem]
    rfl
  · intro h
    unfold nextToken
    rw [if_neg (by omega)]
  · intro fuel
    rfl

/-- Closed instance of amended C9: `next()` past the end of a one-token
sequence returns that token; the empty parse returns an empty script. -/
theorem next_total_and_empty_script_witness :
    nextToken [resTok ";" 0] 5 = some (resTok ";" 0) ∧
    parseFromTokens [] 3 = PRes.ok 0 { funcs := [] } := by
  have h := next_total_and_empty_script [resTok ";" 0] 5 (by simp)
  refine ⟨?_, h.2.2.2 2⟩
  rw [h.2.1 (by decide)]
  rfl

/-! ## Claim C8: parser termination

The adversarial token sequence below makes the top-level parse diverge:
the statement-block loop reaches `return` with a single token left whose
kind is identifier but whose text is the operator `+`.  Past the end of
the stream `next()` keeps returning that clamped last token, which
`parseEXPRVALUE` accepts (not reserved) and `parseEXPROP` then also
accepts (text is an operator candidate), so `parseEXPR` recurses forever
while the cursor keeps advancing past the end.  The run below is `fuelOut`
for every recursion bound. -/

/-- Token sequence `x y { return +` with `+` carrying identifier kind (the
public entry accepts any token array; the spec's termination property
quantifies over random token sequences). -/
def toksC8 : List TokenObject :=
  [identTok "x" 0, identTok "y" 1, resTok "\x7b" 2, resTok "return" 3,
   identTok "+" 4]

theorem nextToken_toksC8_high (p : Nat) (h : 4 ≤ p) :
    nextToken toksC8 p = some (identTok "+" 4) := by
  unfold nextToken
  by_cases h5 : toksC8.length ≤ p
  · rw [if_pos h5]
    rfl
  · rw [if_neg h5]
    rw [show toksC8.length = 5 from rfl] at h5
    have hp : p = 4 := by omega
    subst hp
    rfl

theorem parseEXPR_toksC8_diverges :
    ∀ fuel p, 4 ≤ p → parseEXPR toksC8 fuel p = .fuelOut := by
  intro fuel
  induction fuel with
  | zero => intro p hp; rfl
  | succ n ih =>
      intro p hp
      have hterm : parseEXPRTERM toksC8 p =
          some (p + 2, some (NodeEXPRTERM2.mk
            (some (identTok "+" 4)) (identTok "+" 4) none)) := by
        simp [parseEXPRTERM, parseEXPRTERM2, parseEXPRVALUE,
          nextToken_toksC8_high p hp,
          nextToken_toksC8_high (p + 1) (by omega),
          nextToken_toksC8_high (p + 2) (by omega),
          exprPreOps, exprPostOpStops, identTok]
      have hop : parseEXPROP toksC8 (p + 2) =
          some (p + 3, some (identTok "+" 4)) := by
        simp [parseEXPROP, nextToken_toksC8_high (p + 2) (by omega),
          exprOpCandidates, identTok]
      have hrec := ih (p + 3) (by omega)
      simp [parseEXPR, hterm, hop, hrec]

theorem parseASSIGN_toksC8_diverges :
    ∀ fuel p, 4 ≤ p → parseASSIGN toksC8 fuel p = .fuelOut := by
  intro fuel p hp
  cases fuel with
  | zero => rfl
  | succ n =>
      have h := parseEXPR_toksC8_diverges n p hp
      simp [parseASSIGN, parseCONDITION, h]

theorem parseRETURN_toksC8_diverges :
    ∀ fuel, parseRETURN toksC8 fuel 3 = .fuelOut := by
  intro fuel
  have h := parseASSIGN_toksC8_diverges fuel 4 (by omega)
  simp [parseRETURN,
    show nextToken toksC8 3 = some (resTok "return" 3) from rfl,
    resTok, h]

theorem parseSTATEMENT_toksC8_diverges :
    ∀ fuel, parseSTATEMENT toksC8 fuel 3 = .fuelOut := by
  intro fuel
  cases fuel with
  | zero => rfl
  | succ n =>
      cases n with
      | zero => rfl
      | succ m =>
          have hIF : parseIF toksC8 (m + 1) 3 = .ok 3 .mismatch := rfl
          have hFOR : parseFOR toksC8 3 = .ok 3 .mismatch := rfl
          have hW : parseWHILE toksC8 (m + 1) 3 = .ok 3 .mismatch := rfl
          have hR := parseRETURN_toksC8_diverges (m + 1)
          simp [parseSTATEMENT, hIF, hFOR, hW, hR]

theorem statblockLoop_toksC8_diverges :
    ∀ fuel, statblockLoop toksC8 fuel 3 = .fuelOut := by
  intro fuel
  cases fuel with
  | zero => rfl
  | succ n =>
      have h := parseSTATEMENT_toksC8_diverges n
      simp [statblockLoop, show isEnd toksC8 3 = false from rfl,
        show nextToken toksC8 3 = some (resTok "return" 3) from rfl,
        resTok, h]

theorem parseSTATBLOCK_toksC8_diverges :
    ∀ fuel, parseSTATBLOCK toksC8 fuel 3 = .fuelOut := by
  intro fuel
  have h := statblockLoop_toksC8_diverges fuel
  simp [parseSTATBLOCK,
    show expect toksC8 3 "\x7b" = some (3, false) from rfl, h]

theorem parseFUNC_toksC8_diverges :
    ∀ fuel, parseFUNC toksC8 fuel 0 = .fuelOut := by
  intro fuel
  match fuel with
  | 0 => rfl
  | 1 => rfl
  | k + 2 =>
      have hPL : parsePARAMLIST toksC8 (k + 2) 2 =
          .ok 3 [(NodeTYPE.mk false none (NodeDATATYPE.mk (resTok "\x7b" 2))
                    [] false false, none)] := rfl
      have hSB := parseSTATBLOCK_toksC8_diverges (k + 2)
      simp [parseFUNC,
        show parseTYPE toksC8 0 =
          some (1, some (NodeTYPE.mk false none
            (NodeDATATYPE.mk (identTok "x" 0)) [] false false)) from rfl,
        show nextToken toksC8 1 = some (identTok "y" 1) from rfl,
        hPL, hSB]

theorem parseSCRIPT_toksC8_diverges :
    ∀ fuel, parseSCRIPT toksC8 fuel 0 = .fuelOut := by
  intro fuel
  cases fuel with
  | zero => rfl
  | succ n =>
      have h := parseFUNC_toksC8_diverges n
      simp [parseSCRIPT, show isEnd toksC8 0 = false from rfl, h]

/-- C8 evaluation at the failing input: on the five-token sequence
`x y { return +` (last token of identifier kind with operator text) the
top-level parse exhausts every recursion bound — the source loops forever,
its cursor advancing past the end while `next()` keeps serving the clamped
last token, so the claimed termination for all finite token sequences
fails. -/
theorem parser_divergence_eval :
    ∀ fuel, parseFromTokens toksC8 fuel = PRes.fuelOut := by
  intro fuel
  have h := parseSCRIPT_toksC8_diverges fuel
  simp [parseFromTokens, h]

/-! ## Claim C10: inner declarations shadow outer ones -/

/-- `SymbolScope` of symbolic.ts, restricted to the two fields
`findSymbolWithParent` reads: the symbol map and the parent link.  The
chain of parent links is embedded as a nested value (`ownerNode`,
`childScopes`, `referencedList` and `completionHints` are never read by
the lookup and are elided). -/
inductive SymbolScope where
  | mk (symbolMap : SymbolMap) (parentScope : Option SymbolScope)

/-- The symbol map of a scope. -/
def SymbolScope.symbolMap : SymbolScope → SymbolMap
  | .mk m _ => m

/-- The parent link of a scope. -/
def SymbolScope.parentScope : SymbolScope → Option SymbolScope
  | .mk _ p => p

/-- `findSymbolShallowly(scope, identifier)` of symbolic.ts. -/
def findSymbolShallowly (scope : SymbolScope) (identifier : String) :
    Option SymbolicObject :=
  mapGet scope.symbolMap identifier

/-- `findSymbolWithParent(scope, identifier)` of symbolic.ts: look in this
scope's map first and return the symbol together with this scope; only on
a miss recurse to the parent. -/
def findSymbolWithParent :
    SymbolScope → String → Option (SymbolicObject × SymbolScope)
  | .mk m none, identifier =>
    match mapGet m identifier with
    | some symbol => some (symbol, .mk m none)
    | none => none
  | .mk m (some p), identifier =>
    match mapGet m identifier with
    | some symbol => some (symbol, .mk m (some p))
    | none => findSymbolWithParent p identifier

/-- The ancestor chain of a scope, nearest first (the walk of
`collectParentScopes`). -/
def parentChain : SymbolScope → List SymbolScope
  | .mk _ none => []
  | .mk _ (some p) => p :: parentChain p

/-- C10.  When a scope's own map binds an identifier, the lookup returns
that inner declaration paired with the inner scope itself — even when an
ancestor scope also declares the identifier (the nearest enclosing
declaration shadows outer ones), because the local map is consulted
before recursing to the parent. -/
theorem findSymbolWithParent_shadowing
    (m : SymbolMap) (parent : Option SymbolScope)
    (identifier : String) (s : SymbolicObject)
    (hin : mapGet m identifier = some s)
    (houter : ∃ a ∈ parentChain (.mk m parent),
      (mapGet a.symbolMap identifier).isSome = true) :
    findSymbolWithParent (.mk m parent) identifier =
      some (s, .mk m parent) := by
  cases parent with
  | none => simp [findSymbolWithParent, hin]
  | some p => simp [findSymbolWithParent, hin]

/-- The variable `x` declared in the root scope of the C10 witness. -/
def outerXDemo : SymbolicObject :=
  .ofVar { declaredPlace :=
    { kind := .identifier, text := "x", uid := 70,
      property := propertyOf "x" } }

/-- The variable `x` shadowing it in the inner scope of the C10 witness. -/
def innerXDemo : SymbolicObject :=
  .ofVar { declaredPlace :=
    { kind := .identifier, text := "x", uid := 71,
      property := propertyOf "x" } }

/-- Closed instance of C10: with `x` declared both in the root scope and
in an inner scope, the lookup from the inner scope returns the inner
declaration and the inner scope. -/
theorem findSymbolWithParent_shadowing_witness :
    findSymbolWithParent
      (.mk [("x", innerXDemo)] (some (.mk [("x", outerXDemo)] none))) "x" =
    some (innerXDemo,
      .mk [("x", innerXDemo)] (some (.mk [("x", outerXDemo)] none))) := by
  exact findSymbolWithParent_shadowing _ _ "x" _ rfl
    ⟨.mk [("x", outerXDemo)] none, by simp [parentChain], by rfl⟩

